import Mathlib

/-!
Shallow embedding of `src/script.js` (goodteachtech background animation and
contact form). JavaScript numbers are modelled as real numbers; `Math.random()`
results are passed in explicitly as parameters assumed to lie in `[0, 1)`;
the nullable `mouse` object is an `Option (ℝ × ℝ)`; DOM/canvas effects are
modelled as returned data (`BlobPath`, `SubmitResult`).
-/

namespace GoodTeach

/-- The `config` object of `script.js` (lines 12-20). -/
structure Config where
  particleCount : Nat
  baseSize : ℝ
  colorSpeed : ℝ
  moveSpeed : ℝ
  mouseRepelDist : ℝ
  mouseRepelForce : ℝ
  scrollForce : ℝ

/-- Source literal `const config = { particleCount: 12, baseSize: 400,
colorSpeed: 0.002, moveSpeed: 0.8, mouseRepelDist: 600, mouseRepelForce: 0.02,
scrollForce: 0.05 }`. -/
def config : Config :=
  { particleCount := 12, baseSize := 400, colorSpeed := 0.002, moveSpeed := 0.8,
    mouseRepelDist := 600, mouseRepelForce := 0.02, scrollForce := 0.05 }

/-- The five-entry palette `colors` (lines 24-30). -/
def colors : List String :=
  ["rgba(255, 153, 51, 0.8)", "rgba(255, 180, 100, 0.7)", "rgba(240, 240, 255, 0.8)",
   "rgba(19, 136, 8, 0.8)", "rgba(50, 200, 80, 0.7)"]

/-- Mutable fields of class `Particle` (lines 38-129). -/
structure Particle where
  x : ℝ
  y : ℝ
  vx : ℝ
  vy : ℝ
  targetSize : ℝ
  radius : ℝ
  color : String
  angle : ℝ
  spin : ℝ
  offsets : List ℝ

/-- The shared environment read by `Particle.update`: canvas dimensions,
the nullable `mouse` position and the current `scrollSpeed` scalar. -/
structure Env where
  width : ℝ
  height : ℝ
  mouse : Option (ℝ × ℝ)
  scrollSpeed : ℝ

/-- JavaScript `Math.atan2(y, x)`, modelled as the argument of the complex number
`x + y*i` (range `(-pi, pi]`, `atan2 0 0 = 0`, as in JavaScript). -/
noncomputable def atan2 (y x : ℝ) : ℝ := Complex.arg ⟨x, y⟩

/-- Method `Particle.reset()` (lines 45-57). The sixteen random draws
`Math.random()` are supplied through `ρ : Nat → ℝ` in source order: position
(`ρ 0`, `ρ 1`), velocity, size, color index, angle, spin, then the eight morph
offsets (`ρ 8` .. `ρ 15`). -/
noncomputable def Particle.reset (w h : ℝ) (ρ : Nat → ℝ) : Particle :=
  { x := ρ 0 * w
    y := ρ 1 * h
    vx := (ρ 2 - 0.5) * config.moveSpeed
    vy := (ρ 3 - 0.5) * config.moveSpeed
    targetSize := config.baseSize + ρ 4 * 200
    radius := config.baseSize + ρ 4 * 200
    color := colors.getD (⌊ρ 5 * (colors.length : ℝ)⌋).toNat ""
    angle := ρ 6 * Real.pi * 2
    spin := (ρ 7 - 0.5) * 0.005
    offsets := (List.range 8).map fun j => ρ (8 + j) * 2 * Real.pi }

/-- Constructor `new Particle()` (lines 39-43): `reset()` followed by overwriting
`x` and `y` with two further independent random positions, the seventeenth and
eighteenth draws (`ρ 16`, `ρ 17`). -/
noncomputable def mkParticle (w h : ℝ) (ρ : Nat → ℝ) : Particle :=
  { Particle.reset w h ρ with x := ρ 16 * w, y := ρ 17 * h }

/-- Scroll interaction step of `update()` (line 64):
`this.vy += scrollSpeed * config.scrollForce`. -/
def scrollStep (env : Env) (p : Particle) : Particle :=
  { p with vy := p.vy + env.scrollSpeed * config.scrollForce }

/-- Basic-motion step of `update()` (lines 67-69): integrate position from
velocity and rotation from spin. -/
def moveStep (p : Particle) : Particle :=
  { p with x := p.x + p.vx, y := p.y + p.vy, angle := p.angle + p.spin }

/-- One coordinate of the wrap-around boundary check (lines 73-74 for x,
75-76 for y): two sequential `if`s, below-check first. -/
noncomputable def wrapCoord (dim buffer v : ℝ) : ℝ :=
  let v1 := if v < -buffer then dim + buffer else v
  if v1 > dim + buffer then -buffer else v1

/-- Boundary wrap step of `update()` (lines 71-76), with `buffer = this.radius`. -/
noncomputable def wrapStep (env : Env) (p : Particle) : Particle :=
  { p with x := wrapCoord env.width p.radius p.x, y := wrapCoord env.height p.radius p.y }

/-- Mouse-interaction step of `update()` (lines 78-92): when the mouse
position is known and within `config.mouseRepelDist`, push velocity away
from the mouse with force `(dist - distance)/dist * mouseRepelForce`. -/
noncomputable def repelStep (env : Env) (p : Particle) : Particle :=
  match env.mouse with
  | none => p
  | some m =>
    let dx := m.1 - p.x
    let dy := m.2 - p.y
    let distance := Real.sqrt (dx * dx + dy * dy)
    if distance < config.mouseRepelDist then
      let force := (config.mouseRepelDist - distance) / config.mouseRepelDist
      let a := atan2 dy dx
      { p with vx := p.vx - Real.cos a * force * config.mouseRepelForce,
               vy := p.vy - Real.sin a * force * config.mouseRepelForce }
    else p

/-- Damping step of `update()` (lines 95-96): `vx *= 0.98; vy *= 0.98`. -/
def dampStep (p : Particle) : Particle :=
  { p with vx := p.vx * 0.98, vy := p.vy * 0.98 }

/-- Minimum-speed maintenance step of `update()` (lines 99-100): each
component below magnitude `0.2` gets `(Math.random() - 0.5) * 0.1` added;
the two random draws are `r1` (for `vx`) and `r2` (for `vy`). -/
noncomputable def nudgeStep (r1 r2 : ℝ) (p : Particle) : Particle :=
  { p with
    vx := if |p.vx| < 0.2 then p.vx + (r1 - 0.5) * 0.1 else p.vx,
    vy := if |p.vy| < 0.2 then p.vy + (r2 - 0.5) * 0.1 else p.vy }

/-- Method `Particle.update()` (lines 59-101): scroll interaction, basic motion,
boundary wrap, mouse repulsion, damping, then minimum-speed maintenance. -/
noncomputable def update (env : Env) (r1 r2 : ℝ) (p : Particle) : Particle :=
  nudgeStep r1 r2 (dampStep (repelStep env (wrapStep env (moveStep (scrollStep env p)))))

/-- The canvas path produced by `Particle.draw()`: its vertex list, whether
`ctx.closePath()` was called, and the fill style. -/
structure BlobPath where
  vertices : List (ℝ × ℝ)
  closed : Bool
  fillColor : String

/-- Vertex `i` of the morphing blob (lines 112-118): angle `theta = (i/10)*pi*2`,
noise `sin(theta*2 + time + offsets[i % 8])*0.1 + cos(theta*3 - time)*0.1`,
radius `this.radius * (1 + noise)`, point `(r*cos theta, r*sin theta)`. -/
noncomputable def drawVertex (p : Particle) (time : ℝ) (i : Nat) : ℝ × ℝ :=
  let theta := ((i : ℝ) / 10) * Real.pi * 2
  let noise := Real.sin (theta * 2 + time + p.offsets.getD (i % 8) 0) * 0.1 +
      Real.cos (theta * 3 - time) * 0.1
  let r := p.radius * (1 + noise)
  (r * Real.cos theta, r * Real.sin theta)

/-- Method `Particle.draw()` (lines 103-128): the loop `for (let i = 0; i <= 10; i++)`
emits the eleven vertices `drawVertex 0 .. drawVertex 10`, then the path is
closed and filled with the fixed particle color. -/
noncomputable def draw (p : Particle) (time : ℝ) : BlobPath :=
  { vertices := (List.range 11).map (drawVertex p time), closed := true, fillColor := p.color }

/-- Function `initParticles()` (lines 131-136): empty the array and push
`config.particleCount` freshly constructed particles; particle `i` consumes
the random draws `ρ i`. -/
noncomputable def initParticles (w h : ℝ) (ρ : Nat → Nat → ℝ) : List Particle :=
  (List.range config.particleCount).map fun i => mkParticle w h (ρ i)

/-- The globals written by `resize()`: `width`, `height` and `particles`. -/
structure GlobalState where
  width : ℝ
  height : ℝ
  particles : List Particle

/-- Function `resize()` (lines 32-36): store the new viewport dimensions and rebuild
the whole particle field via `initParticles()`. -/
noncomputable def resize (w h : ℝ) (ρ : Nat → Nat → ℝ) : GlobalState :=
  { width := w, height := h, particles := initParticles w h ρ }

/-- The per-frame simulation state touched by `animate()`. -/
structure SimState where
  particles : List Particle
  scrollSpeed : ℝ

/-- One tick of `animate()` (lines 138-151), drawing omitted: update every
particle against the current shared state, then decay `scrollSpeed *= 0.9`.
`rands i` supplies the two random draws particle `i` uses in `update()`. -/
noncomputable def animateStep (w h : ℝ) (m : Option (ℝ × ℝ)) (rands : Nat → ℝ × ℝ)
    (st : SimState) : SimState :=
  { particles := st.particles.mapIdx fun i p =>
      update { width := w, height := h, mouse := m, scrollSpeed := st.scrollSpeed }
        (rands i).1 (rands i).2 p,
    scrollSpeed := st.scrollSpeed * 0.9 }

/-- The `mousemove` listener (lines 154-157): record the pointer position. -/
def onMouseMove (cx cy : ℝ) (_old : Option (ℝ × ℝ)) : Option (ℝ × ℝ) := some (cx, cy)

/-- The `mouseout` listener (lines 159-162): clear the pointer to the
"no position" sentinel. -/
def onMouseOut (_old : Option (ℝ × ℝ)) : Option (ℝ × ℝ) := none

/-- Characters `encodeURIComponent` leaves unescaped (ECMA-262 `uriUnescaped`):
ASCII letters, digits, and the marks with codes 45 95 46 33 126 42 39 40 41. -/
def isUriUnescaped (c : Char) : Bool :=
  (65 ≤ c.toNat && c.toNat ≤ 90) || (97 ≤ c.toNat && c.toNat ≤ 122) ||
  (48 ≤ c.toNat && c.toNat ≤ 57) ||
  c.toNat == 45 || c.toNat == 95 || c.toNat == 46 || c.toNat == 33 ||
  c.toNat == 126 || c.toNat == 42 || c.toNat == 39 || c.toNat == 40 || c.toNat == 41

/-- UTF-8 byte sequence of a code point. -/
def utf8Bytes (n : Nat) : List Nat :=
  if n < 128 then [n]
  else if n < 2048 then [192 + n / 64, 128 + n % 64]
  else if n < 65536 then [224 + n / 4096, 128 + (n / 64) % 64, 128 + n % 64]
  else [240 + n / 262144, 128 + (n / 4096) % 64, 128 + (n / 64) % 64, 128 + n % 64]

/-- Uppercase hexadecimal digit for `n < 16`. -/
def hexDigitChar (n : Nat) : Char :=
  if n < 10 then Char.ofNat (48 + n) else Char.ofNat (55 + n)

/-- Percent escape of one byte, uppercase hexadecimal as `encodeURIComponent` emits. -/
def percentEscape (b : Nat) : List Char :=
  [Char.ofNat 37, hexDigitChar (b / 16), hexDigitChar (b % 16)]

/-- JavaScript `encodeURIComponent`: unescaped characters pass through, every
other character is UTF-8 encoded and each byte percent-escaped. -/
def encodeURIComponent (s : String) : String :=
  ⟨s.data.flatMap fun c =>
    if isUriUnescaped c then [c] else (utf8Bytes c.toNat).flatMap percentEscape⟩

/-- The email body built by the submit listener (line 186):
`` `Name: ${name}\nEmail: ${email}\n\n${message}` ``. -/
def bodyRaw (name email message : String) : String :=
  "Name: " ++ name ++ "\n" ++ "Email: " ++ email ++ "\n\n" ++ message

/-- Outcome of the `submit` listener: whether `e.preventDefault()` ran and
the `window.location.href` navigation target. -/
structure SubmitResult where
  preventedDefault : Bool
  locationHref : String

/-- The contact-form `submit` listener (lines 177-192): prevent the default
submission and navigate to the composed `mailto:` link. -/
def handleSubmit (name email subject message : String) : SubmitResult :=
  { preventedDefault := true,
    locationHref := "mailto:goodteachtech@gmail.com?subject=" ++ encodeURIComponent subject ++
      "&body=" ++ encodeURIComponent (bodyRaw name email message) }

/-- A concrete particle used to instantiate universally quantified theorems. -/
def p0 : Particle :=
  { x := 0, y := 0, vx := 0, vy := 0, targetSize := 400, radius := 400,
    color := "rgba(255, 153, 51, 0.8)", angle := 0, spin := 0, offsets := [] }

/-- A concrete environment with no pointer present. -/
def env0 : Env := { width := 100, height := 50, mouse := none, scrollSpeed := 0 }

/-- A concrete environment with the pointer at `(300, 400)`. -/
def envM : Env := { width := 1000, height := 1000, mouse := some (300, 400), scrollSpeed := 0 }

/-- A concrete environment whose pointer coincides with the position of `p0`. -/
def envP : Env := { width := 100, height := 50, mouse := some (0, 0), scrollSpeed := 0 }

/-- A concrete simulation state with nonzero scroll speed. -/
def st0 : SimState := { particles := [], scrollSpeed := 2 }

/-- A concrete per-particle random source for `animateStep`. -/
def rands0 : Nat → ℝ × ℝ := fun _ => (0, 0)

/-- A concrete random source for `initParticles`. -/
def rho0 : Nat → Nat → ℝ := fun _ _ => 0

/-- Membership half of the wrap invariant: one wrapped coordinate stays in
`[-buffer, dim + buffer]` whenever the dimension and buffer are nonnegative. -/
theorem wrapCoord_mem (dim buf v : ℝ) (hd : 0 ≤ dim) (hb : 0 ≤ buf) :
    -buf ≤ wrapCoord dim buf v ∧ wrapCoord dim buf v ≤ dim + buf := by
  simp only [wrapCoord]
  split_ifs <;> constructor <;> linarith

/-- A coordinate beyond `dim + buf` wraps to `-buf`. -/
theorem wrapCoord_high (dim buf v : ℝ) (hb : -buf ≤ dim + buf) (h : dim + buf < v) :
    wrapCoord dim buf v = -buf := by
  simp only [wrapCoord]
  split_ifs <;> first | rfl | linarith

/-- A coordinate below `-buf` wraps to `dim + buf`. -/
theorem wrapCoord_low (dim buf v : ℝ) (h : v < -buf) :
    wrapCoord dim buf v = dim + buf := by
  simp only [wrapCoord]
  split_ifs <;> first | rfl | linarith

/-- The mouse-repulsion step only ever writes `vx` and `vy`. -/
theorem repelStep_keeps (env : Env) (p : Particle) :
    (repelStep env p).x = p.x ∧ (repelStep env p).y = p.y ∧
    (repelStep env p).radius = p.radius ∧ (repelStep env p).color = p.color ∧
    (repelStep env p).spin = p.spin ∧ (repelStep env p).offsets = p.offsets ∧
    (repelStep env p).targetSize = p.targetSize ∧ (repelStep env p).angle = p.angle := by
  unfold repelStep
  cases env.mouse with
  | none => exact ⟨rfl, rfl, rfl, rfl, rfl, rfl, rfl, rfl⟩
  | some m =>
    dsimp only
    split_ifs <;> exact ⟨rfl, rfl, rfl, rfl, rfl, rfl, rfl, rfl⟩

/-- The embedded `Math.atan2` agrees with JavaScript at the origin. -/
theorem atan2_zero : atan2 0 0 = 0 := by
  unfold atan2
  have h : (⟨0, 0⟩ : ℂ) = 0 := Complex.ext rfl rfl
  rw [h, Complex.arg_zero]

/-- In the active repel branch, the velocity is reduced by the cosine and sine
of the angle to the pointer, scaled by the force factor and the repel constant. -/
theorem repel_vel (env : Env) (p : Particle) (mx my d : ℝ) (hm : env.mouse = some (mx, my))
    (hdef : d = Real.sqrt ((mx - p.x) * (mx - p.x) + (my - p.y) * (my - p.y)))
    (hd : d < 600) :
    (repelStep env p).vx =
      p.vx - Real.cos (atan2 (my - p.y) (mx - p.x)) * ((600 - d) / 600) * 0.02 ∧
    (repelStep env p).vy =
      p.vy - Real.sin (atan2 (my - p.y) (mx - p.x)) * ((600 - d) / 600) * 0.02 := by
  simp only [repelStep, hm, config]
  rw [← hdef, if_pos hd]
  exact ⟨rfl, rfl⟩

/-- C1: immediately after the wrap step of `update()` the position lies within
`[-radius, dimension + radius]` on both axes; a coordinate exceeding
`dimension + radius` resets to `-radius`, one below `-radius` resets to
`dimension + radius`, the buffer being the own radius of the particle; and the
position of `update()` is exactly the position produced by the wrap step. -/
theorem wrap_position_bounds (env : Env) (p : Particle)
    (hw : 0 ≤ env.width) (hh : 0 ≤ env.height) (hr : 0 ≤ p.radius) :
    (-p.radius ≤ (wrapStep env p).x ∧ (wrapStep env p).x ≤ env.width + p.radius) ∧
    (-p.radius ≤ (wrapStep env p).y ∧ (wrapStep env p).y ≤ env.height + p.radius) ∧
    (env.width + p.radius < p.x → (wrapStep env p).x = -p.radius) ∧
    (p.x < -p.radius → (wrapStep env p).x = env.width + p.radius) ∧
    (env.height + p.radius < p.y → (wrapStep env p).y = -p.radius) ∧
    (p.y < -p.radius → (wrapStep env p).y = env.height + p.radius) ∧
    (∀ r1 r2 : ℝ, (update env r1 r2 p).x = (wrapStep env (moveStep (scrollStep env p))).x ∧
      (update env r1 r2 p).y = (wrapStep env (moveStep (scrollStep env p))).y) := by
  have hbx : -p.radius ≤ env.width + p.radius := by linarith
  have hby : -p.radius ≤ env.height + p.radius := by linarith
  refine ⟨wrapCoord_mem env.width p.radius p.x hw hr,
    wrapCoord_mem env.height p.radius p.y hh hr,
    fun h => wrapCoord_high env.width p.radius p.x hbx h,
    fun h => wrapCoord_low env.width p.radius p.x h,
    fun h => wrapCoord_high env.height p.radius p.y hby h,
    fun h => wrapCoord_low env.height p.radius p.y h,
    fun r1 r2 => ⟨?_, ?_⟩⟩
  · exact (repelStep_keeps env (wrapStep env (moveStep (scrollStep env p)))).1
  · exact (repelStep_keeps env (wrapStep env (moveStep (scrollStep env p)))).2.1

/-- Witness for `wrap_position_bounds` at `env0` and `p0`. -/
theorem wrap_position_bounds_witness :
    (0 : ℝ) ≤ env0.width ∧ (0 : ℝ) ≤ env0.height ∧ (0 : ℝ) ≤ p0.radius ∧
    ((-p0.radius ≤ (wrapStep env0 p0).x ∧ (wrapStep env0 p0).x ≤ env0.width + p0.radius) ∧
     (-p0.radius ≤ (wrapStep env0 p0).y ∧ (wrapStep env0 p0).y ≤ env0.height + p0.radius) ∧
     (env0.width + p0.radius < p0.x → (wrapStep env0 p0).x = -p0.radius) ∧
     (p0.x < -p0.radius → (wrapStep env0 p0).x = env0.width + p0.radius) ∧
     (env0.height + p0.radius < p0.y → (wrapStep env0 p0).y = -p0.radius) ∧
     (p0.y < -p0.radius → (wrapStep env0 p0).y = env0.height + p0.radius) ∧
     (∀ r1 r2 : ℝ, (update env0 r1 r2 p0).x = (wrapStep env0 (moveStep (scrollStep env0 p0))).x ∧
       (update env0 r1 r2 p0).y = (wrapStep env0 (moveStep (scrollStep env0 p0))).y)) :=
  ⟨by norm_num [env0], by norm_num [env0], by norm_num [p0],
    wrap_position_bounds env0 p0 (by norm_num [env0]) (by norm_num [env0]) (by norm_num [p0])⟩

/-- C2: within repel range the repel force has magnitude
`(600 - distance)/600 * 0.02` with the proportional factor bounded in `[0, 1]`,
and for positive distance it points away from the pointer, along the negated
unit vector from particle to pointer. -/
theorem repel_force_magnitude_direction (env : Env) (p : Particle) (mx my d : ℝ)
    (hm : env.mouse = some (mx, my))
    (hdef : d = Real.sqrt ((mx - p.x) * (mx - p.x) + (my - p.y) * (my - p.y)))
    (hd : d < 600) :
    (0 ≤ (600 - d) / 600 ∧ (600 - d) / 600 ≤ 1) ∧
    Real.sqrt (((repelStep env p).vx - p.vx) * ((repelStep env p).vx - p.vx) +
        ((repelStep env p).vy - p.vy) * ((repelStep env p).vy - p.vy)) =
      (600 - d) / 600 * 0.02 ∧
    (0 < d →
      (repelStep env p).vx - p.vx = -((mx - p.x) / d) * ((600 - d) / 600 * 0.02) ∧
      (repelStep env p).vy - p.vy = -((my - p.y) / d) * ((600 - d) / 600 * 0.02)) := by
  have h0 : 0 ≤ d := hdef ▸ Real.sqrt_nonneg _
  obtain ⟨hvx, hvy⟩ := repel_vel env p mx my d hm hdef hd
  have hF : 0 ≤ (600 - d) / 600 * 0.02 :=
    mul_nonneg (div_nonneg (by linarith) (by norm_num)) (by norm_num)
  refine ⟨⟨div_nonneg (by linarith) (by norm_num), ?_⟩, ?_, ?_⟩
  · rw [div_le_one (by norm_num)]; linarith
  · have hsc := Real.sin_sq_add_cos_sq (atan2 (my - p.y) (mx - p.x))
    have key : ((repelStep env p).vx - p.vx) * ((repelStep env p).vx - p.vx) +
        ((repelStep env p).vy - p.vy) * ((repelStep env p).vy - p.vy) =
        ((600 - d) / 600 * 0.02) ^ 2 := by
      rw [hvx, hvy]
      calc (p.vx - Real.cos (atan2 (my - p.y) (mx - p.x)) * ((600 - d) / 600) * 0.02 - p.vx) *
            (p.vx - Real.cos (atan2 (my - p.y) (mx - p.x)) * ((600 - d) / 600) * 0.02 - p.vx) +
          (p.vy - Real.sin (atan2 (my - p.y) (mx - p.x)) * ((600 - d) / 600) * 0.02 - p.vy) *
            (p.vy - Real.sin (atan2 (my - p.y) (mx - p.x)) * ((600 - d) / 600) * 0.02 - p.vy) =
          (Real.sin (atan2 (my - p.y) (mx - p.x)) ^ 2 +
            Real.cos (atan2 (my - p.y) (mx - p.x)) ^ 2) * ((600 - d) / 600 * 0.02) ^ 2 := by
            ring
        _ = ((600 - d) / 600 * 0.02) ^ 2 := by rw [hsc]; ring
    rw [key, Real.sqrt_sq hF]
  · intro hdpos
    have habs : Complex.abs ⟨mx - p.x, my - p.y⟩ = d := by
      rw [Complex.abs_apply, Complex.normSq_mk, ← hdef]
    have hz : (⟨mx - p.x, my - p.y⟩ : ℂ) ≠ 0 := by
      intro h
      have h2 : Complex.abs ⟨mx - p.x, my - p.y⟩ = 0 := by rw [h]; simp
      rw [habs] at h2; linarith
    have hcos : Real.cos (atan2 (my - p.y) (mx - p.x)) = (mx - p.x) / d := by
      unfold atan2
      rw [Complex.cos_arg hz, habs]
    have hsin : Real.sin (atan2 (my - p.y) (mx - p.x)) = (my - p.y) / d := by
      unfold atan2
      rw [Complex.sin_arg, habs]
    constructor
    · rw [hvx, hcos]; ring
    · rw [hvy, hsin]; ring

/-- Witness for `repel_force_magnitude_direction` with the pointer at
`(300, 400)` and the particle at the origin, so the distance is `500`. -/
theorem repel_force_magnitude_direction_witness :
    envM.mouse = some (300, 400) ∧
    (500 : ℝ) = Real.sqrt ((300 - p0.x) * (300 - p0.x) + (400 - p0.y) * (400 - p0.y)) ∧
    (500 : ℝ) < 600 ∧
    ((0 ≤ ((600 : ℝ) - 500) / 600 ∧ ((600 : ℝ) - 500) / 600 ≤ 1) ∧
      Real.sqrt (((repelStep envM p0).vx - p0.vx) * ((repelStep envM p0).vx - p0.vx) +
          ((repelStep envM p0).vy - p0.vy) * ((repelStep envM p0).vy - p0.vy)) =
        ((600 : ℝ) - 500) / 600 * 0.02 ∧
      ((0 : ℝ) < 500 →
        (repelStep envM p0).vx - p0.vx =
          -((300 - p0.x) / 500) * (((600 : ℝ) - 500) / 600 * 0.02) ∧
        (repelStep envM p0).vy - p0.vy =
          -((400 - p0.y) / 500) * (((600 : ℝ) - 500) / 600 * 0.02))) := by
  have hdef : (500 : ℝ) =
      Real.sqrt ((300 - p0.x) * (300 - p0.x) + (400 - p0.y) * (400 - p0.y)) := by
    rw [show ((300 : ℝ) - p0.x) * (300 - p0.x) + (400 - p0.y) * (400 - p0.y) = 500 ^ 2 by
        norm_num [p0],
      Real.sqrt_sq (by norm_num : (0 : ℝ) ≤ 500)]
  exact ⟨rfl, hdef, by norm_num,
    repel_force_magnitude_direction envM p0 300 400 500 rfl hdef (by norm_num)⟩

/-- C3: the repel force acts only when a pointer position is known and the
distance is strictly under `600`; with an absent pointer or distance at least
`600` the repel step leaves both velocity components unchanged. -/
theorem repel_inactive_when_far_or_absent (env : Env) (p : Particle)
    (h : env.mouse = none ∨ ∃ mx my, env.mouse = some (mx, my) ∧
      600 ≤ Real.sqrt ((mx - p.x) * (mx - p.x) + (my - p.y) * (my - p.y))) :
    (repelStep env p).vx = p.vx ∧ (repelStep env p).vy = p.vy := by
  rcases h with h | ⟨mx, my, hm, hd⟩
  · simp [repelStep, h]
  · simp only [repelStep, hm, config]
    rw [if_neg (not_lt.mpr hd)]
    exact ⟨rfl, rfl⟩

/-- Witness for `repel_inactive_when_far_or_absent` with the pointer absent. -/
theorem repel_inactive_when_far_or_absent_witness :
    (env0.mouse = none ∨ ∃ mx my, env0.mouse = some (mx, my) ∧
      600 ≤ Real.sqrt ((mx - p0.x) * (mx - p0.x) + (my - p0.y) * (my - p0.y))) ∧
    (repelStep env0 p0).vx = p0.vx ∧ (repelStep env0 p0).vy = p0.vy :=
  ⟨Or.inl rfl, repel_inactive_when_far_or_absent env0 p0 (Or.inl rfl)⟩

/-- C4: each animation frame multiplies the scroll speed by exactly `0.9`, and
when it is nonzero its magnitude strictly decreases. -/
theorem scroll_speed_decay (w h : ℝ) (m : Option (ℝ × ℝ)) (rands : Nat → ℝ × ℝ)
    (st : SimState) (hs : st.scrollSpeed ≠ 0) :
    (animateStep w h m rands st).scrollSpeed = 0.9 * st.scrollSpeed ∧
    |(animateStep w h m rands st).scrollSpeed| < |st.scrollSpeed| := by
  have hp : 0 < |st.scrollSpeed| := abs_pos.mpr hs
  have h09 : |(0.9 : ℝ)| = 0.9 := abs_of_pos (by norm_num)
  constructor
  · simp only [animateStep]; ring
  · simp only [animateStep]
    rw [abs_mul, h09]
    nlinarith [hp]

/-- Witness for `scroll_speed_decay` at scroll speed `2`. -/
theorem scroll_speed_decay_witness :
    st0.scrollSpeed ≠ 0 ∧
    ((animateStep 100 50 none rands0 st0).scrollSpeed = 0.9 * st0.scrollSpeed ∧
     |(animateStep 100 50 none rands0 st0).scrollSpeed| < |st0.scrollSpeed|) :=
  ⟨by norm_num [st0], scroll_speed_decay 100 50 none rands0 st0 (by norm_num [st0])⟩

/-- C5: `resize()` rebuilds the field via `initParticles()`, which yields exactly
`config.particleCount = 12` particles, each one freshly constructed from its own
random draws, while a frame of `animate()` never changes the particle count. -/
theorem resize_reinitializes_field (w h : ℝ) (ρ : Nat → Nat → ℝ) (i : Nat)
    (hi : i < config.particleCount) :
    (resize w h ρ).particles = initParticles w h ρ ∧
    (initParticles w h ρ).length = config.particleCount ∧
    config.particleCount = 12 ∧
    (initParticles w h ρ).getD i p0 = mkParticle w h (ρ i) ∧
    (∀ w2 h2 m rands st, ((animateStep w2 h2 m rands st).particles).length =
      st.particles.length) := by
  refine ⟨rfl, by simp [initParticles], rfl, ?_, ?_⟩
  · rw [List.getD_eq_getElem _ _ (by simpa [initParticles] using hi)]
    simp [initParticles]
  · intro w2 h2 m rands st
    simp [animateStep]

/-- Witness for `resize_reinitializes_field` at index `3`. -/
theorem resize_reinitializes_field_witness :
    3 < config.particleCount ∧
    ((resize 100 50 rho0).particles = initParticles 100 50 rho0 ∧
      (initParticles 100 50 rho0).length = config.particleCount ∧
      config.particleCount = 12 ∧
      (initParticles 100 50 rho0).getD 3 p0 = mkParticle 100 50 (rho0 3) ∧
      (∀ w2 h2 m rands st, ((animateStep w2 h2 m rands st).particles).length =
        st.particles.length)) :=
  ⟨by norm_num [config], resize_reinitializes_field 100 50 rho0 3 (by norm_num [config])⟩

/-- C6: in `update()` each velocity component after the repel step is multiplied
by `0.98`, and a component whose damped magnitude is below `0.2` is nudged by
`(random - 0.5) * 0.1`, a delta lying in `[-0.05, 0.05)` for a random draw
in `[0, 1)`. -/
theorem damping_and_nudge (env : Env) (r1 r2 : ℝ) (p : Particle)
    (h1 : 0 ≤ r1) (h1b : r1 < 1) (h2 : 0 ≤ r2) (h2b : r2 < 1) :
    ((update env r1 r2 p).vx =
      if |(repelStep env (wrapStep env (moveStep (scrollStep env p)))).vx * 0.98| < 0.2
      then (repelStep env (wrapStep env (moveStep (scrollStep env p)))).vx * 0.98 +
        (r1 - 0.5) * 0.1
      else (repelStep env (wrapStep env (moveStep (scrollStep env p)))).vx * 0.98) ∧
    ((update env r1 r2 p).vy =
      if |(repelStep env (wrapStep env (moveStep (scrollStep env p)))).vy * 0.98| < 0.2
      then (repelStep env (wrapStep env (moveStep (scrollStep env p)))).vy * 0.98 +
        (r2 - 0.5) * 0.1
      else (repelStep env (wrapStep env (moveStep (scrollStep env p)))).vy * 0.98) ∧
    (-0.05 ≤ (r1 - 0.5) * 0.1 ∧ (r1 - 0.5) * 0.1 < 0.05) ∧
    (-0.05 ≤ (r2 - 0.5) * 0.1 ∧ (r2 - 0.5) * 0.1 < 0.05) :=
  ⟨rfl, rfl, ⟨by linarith, by linarith⟩, ⟨by linarith, by linarith⟩⟩

/-- Witness for `damping_and_nudge` with random draws `0.25` and `0.75`. -/
theorem damping_and_nudge_witness :
    (0 : ℝ) ≤ 0.25 ∧ (0.25 : ℝ) < 1 ∧ (0 : ℝ) ≤ 0.75 ∧ (0.75 : ℝ) < 1 ∧
    (((update env0 0.25 0.75 p0).vx =
      if |(repelStep env0 (wrapStep env0 (moveStep (scrollStep env0 p0)))).vx * 0.98| < 0.2
      then (repelStep env0 (wrapStep env0 (moveStep (scrollStep env0 p0)))).vx * 0.98 +
        ((0.25 : ℝ) - 0.5) * 0.1
      else (repelStep env0 (wrapStep env0 (moveStep (scrollStep env0 p0)))).vx * 0.98) ∧
    ((update env0 0.25 0.75 p0).vy =
      if |(repelStep env0 (wrapStep env0 (moveStep (scrollStep env0 p0)))).vy * 0.98| < 0.2
      then (repelStep env0 (wrapStep env0 (moveStep (scrollStep env0 p0)))).vy * 0.98 +
        ((0.75 : ℝ) - 0.5) * 0.1
      else (repelStep env0 (wrapStep env0 (moveStep (scrollStep env0 p0)))).vy * 0.98) ∧
    (-0.05 ≤ ((0.25 : ℝ) - 0.5) * 0.1 ∧ ((0.25 : ℝ) - 0.5) * 0.1 < 0.05) ∧
    (-0.05 ≤ ((0.75 : ℝ) - 0.5) * 0.1 ∧ ((0.75 : ℝ) - 0.5) * 0.1 < 0.05)) :=
  ⟨by norm_num, by norm_num, by norm_num, by norm_num,
    damping_and_nudge env0 0.25 0.75 p0 (by norm_num) (by norm_num) (by norm_num) (by norm_num)⟩

/-- C7: submitting the contact form with Name `A`, Email `a@b.com`, Subject `Hi`
and Message `Hello` prevents the default submission and navigates to the
`mailto:` link whose subject is `Hi` and whose percent-encoded body holds
`Name: A`, `Email: a@b.com` and `Hello` on separate lines. -/
theorem contact_form_mailto :
    (handleSubmit "A" "a@b.com" "Hi" "Hello").preventedDefault = true ∧
    (handleSubmit "A" "a@b.com" "Hi" "Hello").locationHref =
      "mailto:goodteachtech@gmail.com?subject=Hi&body=Name%3A%20A%0AEmail%3A%20a%40b.com%0A%0AHello" ∧
    bodyRaw "A" "a@b.com" "Hello" =
      "Name: A" ++ "\n" ++ "Email: a@b.com" ++ "\n" ++ "" ++ "\n" ++ "Hello" ∧
    encodeURIComponent "Hi" = "Hi" := by
  decide

/-- C8: `draw()` emits a closed polygon of eleven vertices; vertex `i` sits at
angle `theta = 2*pi*i/10` and sample radius
`radius * (1 + 0.1*sin(2*theta + time + offsets[i % 8]) + 0.1*cos(3*theta - time))`. -/
theorem draw_blob_vertices (p : Particle) (t : ℝ) (i : Nat) (hi : i ≤ 10) :
    (draw p t).closed = true ∧
    (draw p t).fillColor = p.color ∧
    (draw p t).vertices.length = 11 ∧
    (draw p t).vertices.getD i ((0 : ℝ), (0 : ℝ)) =
      (p.radius * (1 + 0.1 * Real.sin (2 * (2 * Real.pi * i / 10) + t +
            p.offsets.getD (i % 8) 0) +
          0.1 * Real.cos (3 * (2 * Real.pi * i / 10) - t)) * Real.cos (2 * Real.pi * i / 10),
       p.radius * (1 + 0.1 * Real.sin (2 * (2 * Real.pi * i / 10) + t +
            p.offsets.getD (i % 8) 0) +
          0.1 * Real.cos (3 * (2 * Real.pi * i / 10) - t)) * Real.sin (2 * Real.pi * i / 10)) := by
  have hi' : i < 11 := Nat.lt_succ_of_le hi
  have hlen : (draw p t).vertices.length = 11 := by simp [draw]
  refine ⟨rfl, rfl, hlen, ?_⟩
  have hget : (draw p t).vertices.getD i ((0 : ℝ), (0 : ℝ)) = drawVertex p t i := by
    rw [List.getD_eq_getElem _ _ (by rw [hlen]; exact hi')]
    simp [draw]
  rw [hget]
  simp only [drawVertex]
  have h1 : ((i : ℝ) / 10) * Real.pi * 2 = 2 * Real.pi * i / 10 := by ring
  rw [h1]
  have h2 : 2 * Real.pi * (i : ℝ) / 10 * 2 + t + p.offsets.getD (i % 8) 0 =
      2 * (2 * Real.pi * i / 10) + t + p.offsets.getD (i % 8) 0 := by ring
  have h3 : 2 * Real.pi * (i : ℝ) / 10 * 3 - t = 3 * (2 * Real.pi * i / 10) - t := by ring
  rw [h2, h3]
  simp only [Prod.mk.injEq]
  constructor <;> ring

/-- Witness for `draw_blob_vertices` at vertex `3` and time `0`. -/
theorem draw_blob_vertices_witness :
    (3 : Nat) ≤ 10 ∧
    ((draw p0 0).closed = true ∧
     (draw p0 0).fillColor = p0.color ∧
     (draw p0 0).vertices.length = 11 ∧
     (draw p0 0).vertices.getD 3 ((0 : ℝ), (0 : ℝ)) =
       (p0.radius * (1 + 0.1 * Real.sin (2 * (2 * Real.pi * ((3 : Nat) : ℝ) / 10) + 0 +
             p0.offsets.getD (3 % 8) 0) +
           0.1 * Real.cos (3 * (2 * Real.pi * ((3 : Nat) : ℝ) / 10) - 0)) *
         Real.cos (2 * Real.pi * ((3 : Nat) : ℝ) / 10),
        p0.radius * (1 + 0.1 * Real.sin (2 * (2 * Real.pi * ((3 : Nat) : ℝ) / 10) + 0 +
             p0.offsets.getD (3 % 8) 0) +
           0.1 * Real.cos (3 * (2 * Real.pi * ((3 : Nat) : ℝ) / 10) - 0)) *
         Real.sin (2 * Real.pi * ((3 : Nat) : ℝ) / 10))) :=
  ⟨by norm_num, draw_blob_vertices p0 0 3 (by norm_num)⟩

/-- C9: `update()` modifies only position, velocity and rotation angle; radius,
color, spin rate, morph offsets and target size are untouched. -/
theorem update_preserves_static_fields (env : Env) (r1 r2 : ℝ) (p : Particle) :
    (update env r1 r2 p).radius = p.radius ∧ (update env r1 r2 p).color = p.color ∧
    (update env r1 r2 p).spin = p.spin ∧ (update env r1 r2 p).offsets = p.offsets ∧
    (update env r1 r2 p).targetSize = p.targetSize := by
  obtain ⟨-, -, h1, h2, h3, h4, h5, -⟩ :=
    repelStep_keeps env (wrapStep env (moveStep (scrollStep env p)))
  exact ⟨h1, h2, h3, h4, h5⟩

/-- C10: with the pointer exactly at the particle, the repel branch is total:
`atan2 0 0 = 0`, the proportional factor is exactly `1`, and the applied force
is `0.02` along the negative x-axis, leaving `vy` unchanged. -/
theorem repel_at_zero_distance (env : Env) (p : Particle)
    (hm : env.mouse = some (p.x, p.y)) :
    atan2 0 0 = 0 ∧
    (600 - Real.sqrt ((p.x - p.x) * (p.x - p.x) + (p.y - p.y) * (p.y - p.y))) / 600 = 1 ∧
    (repelStep env p).vx = p.vx - 0.02 ∧ (repelStep env p).vy = p.vy := by
  refine ⟨atan2_zero, by simp, ?_, ?_⟩ <;>
  · simp only [repelStep, hm]
    norm_num [config, atan2_zero]

/-- Witness for `repel_at_zero_distance` with the pointer on the particle. -/
theorem repel_at_zero_distance_witness :
    envP.mouse = some (p0.x, p0.y) ∧
    (atan2 0 0 = 0 ∧
     (600 - Real.sqrt ((p0.x - p0.x) * (p0.x - p0.x) + (p0.y - p0.y) * (p0.y - p0.y))) / 600 = 1 ∧
     (repelStep envP p0).vx = p0.vx - 0.02 ∧ (repelStep envP p0).vy = p0.vy) :=
  ⟨rfl, repel_at_zero_distance envP p0 rfl⟩

end GoodTeach
